import Mathlib

/-!
# Verification of `tts_server.py`

A shallow embedding of the Flask TTS server's single request handler
(`synthesize`, `src/tts_server.py`), together with theorems settling the
specification claims about it.

Modelling decisions:
* A parsed JSON body is a `JsonVal` (Python `request.json` result; JSON
  `null` becomes `JsonVal.null`, i.e. Python `None`).
* Python truthiness (`if not text:`) is `truthy`.
* `data.get("text", "")` is `dictGet`: on a JSON object it looks the key
  up with Python-`str` default `""`; on any non-object (including `None`)
  it raises `AttributeError`, modelled by `Except.error`.
* The filesystem is the set (list) of existing paths, `FS`.
* The external Coqui capability `tts.tts_to_file(text, file_path)` is an
  abstract parameter `cap : Capability`; it may succeed with a new
  filesystem, or raise carrying the filesystem it leaves behind (possibly
  holding a partially written file).
* `uuid.uuid4().hex` is modelled by a generator `uuidGen : Nat → String`
  together with a counter consumed exactly when the code calls `uuid4()`.
-/

/-- A parsed JSON value, as Python's JSON layer produces it. -/
inductive JsonVal where
  | null
  | bool (b : Bool)
  | num (n : Int)
  | str (s : String)
  | arr (xs : List JsonVal)
  | obj (fields : List (String × JsonVal))

/-- Python truthiness of a JSON value (`if not text:`). -/
def truthy : JsonVal → Bool
  | .null => false
  | .bool b => b
  | .num n => n != 0
  | .str s => !s.isEmpty
  | .arr xs => !xs.isEmpty
  | .obj fields => !fields.isEmpty

/-- A Python exception escaping the handler. -/
inductive PyError where
  | attributeError
  | exception (msg : String)

/-- Python's `str.startswith`, on the underlying character list. -/
def pyStartsWith (s p : String) : Bool := p.data.isPrefixOf s.data

/-- Python's `str.endswith`, on the underlying character list. -/
def pyEndsWith (s p : String) : Bool := p.data.isSuffixOf s.data

/-- `os.path.join(a, b)` for exactly two POSIX path components. -/
def os_path_join (a b : String) : String :=
  if pyStartsWith b "/" then b
  else if a = "" then b
  else if pyEndsWith a "/" then a ++ b
  else a ++ "/" ++ b

/-- `data.get("text", "")`: dictionary lookup with default `""` on a JSON
object; `AttributeError` on every non-object value (`None`, strings,
numbers, booleans, arrays have no `.get`). -/
def dictGet (data : JsonVal) (key : String) (dflt : JsonVal) :
    Except PyError JsonVal :=
  match data with
  | .obj fields => .ok ((fields.lookup key).getD dflt)
  | _ => .error .attributeError

/-- The filesystem visible to the handler: the set of existing paths. -/
structure FS where
  files : List String

/-- One invocation of the synthesis capability: the `(text, file_path)`
arguments of `tts.tts_to_file`. -/
structure SynthCall where
  text : JsonVal
  file_path : String

/-- The external speech-synthesis capability. Given the text, the target
path, and the current filesystem it either succeeds with the new
filesystem, or raises, carrying the filesystem it leaves behind (which may
contain a partially written file). -/
def Capability : Type :=
  JsonVal → String → FS → Except (PyError × FS) FS

/-- An HTTP response: status code and JSON body. -/
structure Response where
  status : Nat
  body : JsonVal

/-- Everything one call of the handler produces: the response (or the
escaping exception), the list of synthesis invocations it made, the final
filesystem, and the uuid counter (advanced exactly when `uuid4()` ran). -/
structure HandlerOutcome where
  result : Except PyError Response
  calls : List SynthCall
  fs : FS
  ctr : Nat

/-- `OUTPUT_DIR = "/home/pi/.node-red/static/audio/tts"` (line 34). -/
def OUTPUT_DIR : String := "/home/pi/.node-red/static/audio/tts"

/-- The output path built at lines 46–47:
`os.path.join(OUTPUT_DIR, f"tts_{tok}.wav")`. -/
def audioFilePath (tok : String) : String :=
  os_path_join OUTPUT_DIR ("tts_" ++ tok ++ ".wav")

/-- The 400 validation response (line 43):
`jsonify({"error": "No text provided"}), 400`. -/
def noTextResponse : Response :=
  ⟨400, .obj [("error", .str "No text provided")]⟩

/-- The 200 success response (line 53): `jsonify({"audio_path": filepath})`. -/
def okResponse (p : String) : Response :=
  ⟨200, .obj [("audio_path", .str p)]⟩

/-- The `synthesize` handler (lines 38–53), parametric in the synthesis
capability and the uuid stream:

```
data = request.json
text = data.get("text", "")
if not text:
    return jsonify({"error": "No text provided"}), 400
filename = f"tts_{uuid.uuid4().hex}.wav"
filepath = os.path.join(OUTPUT_DIR, filename)
tts.tts_to_file(text=text, file_path=filepath)
return jsonify({"audio_path": filepath})
```
-/
def synthesize (cap : Capability) (uuidGen : Nat → String)
    (data : JsonVal) (ctr : Nat) (fs : FS) : HandlerOutcome :=
  match dictGet data "text" (.str "") with
  | .error e => ⟨.error e, [], fs, ctr⟩
  | .ok text =>
    if truthy text then
      let tok := uuidGen ctr
      let filepath := audioFilePath tok
      match cap text filepath fs with
      | .error (e, fs1) => ⟨.error e, [⟨text, filepath⟩], fs1, ctr + 1⟩
      | .ok fs1 => ⟨.ok (okResponse filepath), [⟨text, filepath⟩], fs1, ctr + 1⟩
    else
      ⟨.ok noTextResponse, [], fs, ctr⟩

/-- Is `c` a lowercase hexadecimal digit? -/
def isLowerHexChar (c : Char) : Bool :=
  (('0' ≤ c && c ≤ '9') || ('a' ≤ c && c ≤ 'f'))

/-- Is `s` a 32-character lowercase hexadecimal token (the shape of
`uuid.uuid4().hex`)? -/
def isHex32 (s : String) : Bool :=
  s.length == 32 && s.data.all isLowerHexChar

/-- A capability that writes a file at the path it is given: on success
the target path exists in the resulting filesystem. -/
def WritesFile (cap : Capability) : Prop :=
  ∀ t p fs fs', cap t p fs = .ok fs' → p ∈ fs'.files

/-- A capability whose only filesystem effect is (at most) creating the
file at the path it is given: every pre-existing file survives, and no
path other than the given one appears. This holds both when it succeeds
and when it raises after a partial write. -/
def OnlyCreatesGivenPath (cap : Capability) : Prop :=
  (∀ t p fs fs', cap t p fs = .ok fs' →
      fs.files ⊆ fs'.files ∧ fs'.files ⊆ p :: fs.files) ∧
  (∀ t p fs e fs1, cap t p fs = .error (e, fs1) →
      fs.files ⊆ fs1.files ∧ fs1.files ⊆ p :: fs.files)

/-- A concrete capability used in witnesses: it records the target path
as created and succeeds. -/
def capAdd : Capability := fun _ p fs => .ok ⟨p :: fs.files⟩

/-- A concrete capability used in witnesses: it always raises, leaving a
partially written file at the target path. -/
def capFail : Capability := fun _ p fs =>
  .error (.exception "synthesis failed", ⟨p :: fs.files⟩)

/-- A concrete uuid stream used in witnesses. -/
def uuidGen0 : Nat → String := fun n =>
  if n = 0 then "0123456789abcdef0123456789abcdef"
  else "ffffffffffffffffffffffffffffffff"

example :
    (synthesize capAdd uuidGen0 (.obj [("text", .str "hello world")]) 0 ⟨[]⟩).result
      = .ok (okResponse (OUTPUT_DIR ++ "/tts_0123456789abcdef0123456789abcdef.wav")) := rfl

example :
    synthesize capAdd uuidGen0 (.obj []) 0 ⟨[]⟩
      = ⟨.ok noTextResponse, [], ⟨[]⟩, 0⟩ := rfl

example :
    synthesize capAdd uuidGen0 .null 0 ⟨[]⟩
      = ⟨.error .attributeError, [], ⟨[]⟩, 0⟩ := rfl

example : isHex32 (uuidGen0 0) = true := by decide

/-! ## Helper lemmas shared by the claim theorems -/

/-- A non-empty Python string is truthy. -/
theorem truthy_str_of_ne (s : String) (hs : s ≠ "") : truthy (.str s) = true := by
  have h : s.isEmpty = false := by
    cases h : s.isEmpty
    · rfl
    · exact absurd ((String.isEmpty_iff s).mp h) hs
  simp [truthy, h]

/-- The joined output path is literally `OUTPUT_DIR ++ "/tts_" ++ tok ++ ".wav"`:
the filename component is relative and `OUTPUT_DIR` is non-empty with no
trailing slash, so `os.path.join` concatenates with one separator. -/
theorem audioFilePath_eq (tok : String) :
    audioFilePath tok = OUTPUT_DIR ++ "/tts_" ++ tok ++ ".wav" := by
  unfold audioFilePath os_path_join
  have h1 : pyStartsWith ("tts_" ++ tok ++ ".wav") "/" = false := by
    simp only [pyStartsWith, String.data_append]
    simp [List.isPrefixOf]
  rw [h1]
  rw [if_neg (by decide : ¬ (OUTPUT_DIR = "")),
      if_neg (by decide : ¬ (pyEndsWith OUTPUT_DIR "/" = true))]
  apply String.ext
  simp [String.data_append]

/-- The produced path is absolute: it starts with `/`. -/
theorem audioFilePath_absolute (tok : String) :
    pyStartsWith (audioFilePath tok) "/" = true := by
  rw [audioFilePath_eq]
  simp [pyStartsWith, String.data_append, OUTPUT_DIR, List.isPrefixOf]

/-- Building the output path is injective in the random token. -/
theorem audioFilePath_inj (a b : String) (h : audioFilePath a = audioFilePath b) :
    a = b := by
  rw [audioFilePath_eq, audioFilePath_eq] at h
  have hd := congrArg String.data h
  simp only [String.data_append] at hd
  exact String.ext (List.append_cancel_left (List.append_cancel_right hd))

/-- If `data.get` raises, the handler re-raises at once: nothing happens. -/
theorem synthesize_get_raises (cap : Capability) (uuidGen : Nat → String)
    (data : JsonVal) (ctr : Nat) (fs : FS) (e : PyError)
    (hd : dictGet data "text" (.str "") = .error e) :
    synthesize cap uuidGen data ctr fs = ⟨.error e, [], fs, ctr⟩ := by
  unfold synthesize
  rw [hd]

/-- If the extracted `text` is falsy, the handler returns the 400 response
with no synthesis call, no filesystem change, and no uuid consumed. -/
theorem synthesize_rejected (cap : Capability) (uuidGen : Nat → String)
    (data : JsonVal) (ctr : Nat) (fs : FS) (v : JsonVal)
    (hd : dictGet data "text" (.str "") = .ok v) (ht : truthy v = false) :
    synthesize cap uuidGen data ctr fs = ⟨.ok noTextResponse, [], fs, ctr⟩ := by
  unfold synthesize
  rw [hd]
  simp [ht]

/-- If the extracted `text` is truthy and the capability succeeds, the
handler returns 200 with the generated path, having made exactly that one
synthesis call and consumed one uuid. -/
theorem synthesize_accepted_ok (cap : Capability) (uuidGen : Nat → String)
    (data : JsonVal) (ctr : Nat) (fs : FS) (v : JsonVal) (fs1 : FS)
    (hd : dictGet data "text" (.str "") = .ok v) (ht : truthy v = true)
    (hc : cap v (audioFilePath (uuidGen ctr)) fs = .ok fs1) :
    synthesize cap uuidGen data ctr fs =
      ⟨.ok (okResponse (audioFilePath (uuidGen ctr))),
       [⟨v, audioFilePath (uuidGen ctr)⟩], fs1, ctr + 1⟩ := by
  unfold synthesize
  rw [hd]
  simp only [ht, if_true]
  rw [hc]

/-- If the extracted `text` is truthy and the capability raises, the
handler re-raises, leaving the filesystem exactly as the capability left
it (no cleanup), after that one synthesis call. -/
theorem synthesize_accepted_error (cap : Capability) (uuidGen : Nat → String)
    (data : JsonVal) (ctr : Nat) (fs : FS) (v : JsonVal) (e : PyError) (fs1 : FS)
    (hd : dictGet data "text" (.str "") = .ok v) (ht : truthy v = true)
    (hc : cap v (audioFilePath (uuidGen ctr)) fs = .error (e, fs1)) :
    synthesize cap uuidGen data ctr fs =
      ⟨.error e, [⟨v, audioFilePath (uuidGen ctr)⟩], fs1, ctr + 1⟩ := by
  unfold synthesize
  rw [hd]
  simp only [ht, if_true]
  rw [hc]

/-- Whatever the capability does, an accepted request makes exactly one
synthesis call, with the extracted text and the generated path. -/
theorem synthesize_calls_accepted (cap : Capability) (uuidGen : Nat → String)
    (data : JsonVal) (ctr : Nat) (fs : FS) (v : JsonVal)
    (hd : dictGet data "text" (.str "") = .ok v) (ht : truthy v = true) :
    (synthesize cap uuidGen data ctr fs).calls
      = [⟨v, audioFilePath (uuidGen ctr)⟩] := by
  cases hc : cap v (audioFilePath (uuidGen ctr)) fs with
  | error p =>
    obtain ⟨e, fs1⟩ := p
    rw [synthesize_accepted_error cap uuidGen data ctr fs v e fs1 hd ht hc]
  | ok fs1 =>
    rw [synthesize_accepted_ok cap uuidGen data ctr fs v fs1 hd ht hc]

/-- The witness capability `capAdd` writes a file at the path it is given. -/
theorem capAdd_writes : WritesFile capAdd := by
  intro t p fs fs' h
  cases h
  exact List.mem_cons_self _ _

/-- The witness capability `capAdd` only creates the file it is asked for. -/
theorem capAdd_onlyCreates : OnlyCreatesGivenPath capAdd := by
  constructor
  · intro t p fs fs' h
    cases h
    exact ⟨List.subset_cons_self p fs.files, List.Subset.refl _⟩
  · intro t p fs e fs1 h
    exact Except.noConfusion h

/-- The witness capability `capFail` only (partially) creates the file it
is asked for, before raising. -/
theorem capFail_onlyCreates : OnlyCreatesGivenPath capFail := by
  constructor
  · intro t p fs fs' h
    exact Except.noConfusion h
  · intro t p fs e fs1 h
    cases h
    exact ⟨List.subset_cons_self p fs.files, List.Subset.refl _⟩

/-! ## Claim theorems -/

/-- C1: for every request whose body contains a non-empty `text` string,
the handler returns status 200 with JSON body `{"audio_path": p}`, where
`p` is exactly the path passed to the capability's `(text, file_path)`
call, and — the capability writing a file at the path it is given — a
file exists at `p` when the response is returned. -/
theorem c1_success_returns_existing_path (cap : Capability)
    (uuidGen : Nat → String) (fields : List (String × JsonVal)) (s : String)
    (ctr : Nat) (fs fs' : FS)
    (hl : fields.lookup "text" = some (.str s)) (hs : s ≠ "")
    (hw : WritesFile cap)
    (hc : cap (.str s) (audioFilePath (uuidGen ctr)) fs = .ok fs') :
    (synthesize cap uuidGen (.obj fields) ctr fs).result
        = .ok (okResponse (audioFilePath (uuidGen ctr))) ∧
    (synthesize cap uuidGen (.obj fields) ctr fs).calls
        = [⟨.str s, audioFilePath (uuidGen ctr)⟩] ∧
    audioFilePath (uuidGen ctr) ∈ (synthesize cap uuidGen (.obj fields) ctr fs).fs.files := by
  have hd : dictGet (.obj fields) "text" (.str "") = .ok (.str s) := by
    simp [dictGet, hl]
  rw [synthesize_accepted_ok cap uuidGen (.obj fields) ctr fs (.str s) fs' hd
      (truthy_str_of_ne s hs) hc]
  exact ⟨rfl, rfl, hw _ _ _ _ hc⟩

/-- Witness for C1 at body `{"text": "hello world"}`. -/
theorem c1_witness :
    (synthesize capAdd uuidGen0 (.obj [("text", .str "hello world")]) 0 ⟨[]⟩).result
        = .ok (okResponse (audioFilePath (uuidGen0 0))) ∧
    (synthesize capAdd uuidGen0 (.obj [("text", .str "hello world")]) 0 ⟨[]⟩).calls
        = [⟨.str "hello world", audioFilePath (uuidGen0 0)⟩] ∧
    audioFilePath (uuidGen0 0)
        ∈ (synthesize capAdd uuidGen0 (.obj [("text", .str "hello world")]) 0 ⟨[]⟩).fs.files :=
  c1_success_returns_existing_path capAdd uuidGen0 [("text", .str "hello world")]
    "hello world" 0 ⟨[]⟩ ⟨[audioFilePath (uuidGen0 0)]⟩ rfl (by decide) capAdd_writes rfl

/-- C2: a JSON-object body with `text` absent or bound to `""` gets
exactly status 400 with body `{"error": "No text provided"}` (and, as the
full outcome equation shows, no synthesis call, no filesystem change, no
uuid consumed). -/
theorem c2_missing_or_empty_text_400 (cap : Capability) (uuidGen : Nat → String)
    (fields : List (String × JsonVal)) (ctr : Nat) (fs : FS)
    (h : fields.lookup "text" = none ∨ fields.lookup "text" = some (.str "")) :
    synthesize cap uuidGen (.obj fields) ctr fs
      = ⟨.ok noTextResponse, [], fs, ctr⟩ := by
  rcases h with h | h
  · exact synthesize_rejected cap uuidGen (.obj fields) ctr fs (.str "")
      (by simp [dictGet, h]) rfl
  · exact synthesize_rejected cap uuidGen (.obj fields) ctr fs (.str "")
      (by simp [dictGet, h]) rfl

/-- Witness for C2 at body `{}`. -/
theorem c2_witness :
    synthesize capAdd uuidGen0 (.obj []) 0 ⟨[]⟩
      = ⟨.ok noTextResponse, [], ⟨[]⟩, 0⟩ :=
  c2_missing_or_empty_text_400 capAdd uuidGen0 [] 0 ⟨[]⟩ (Or.inl rfl)

/-- Counterexample to C3: for body `{"text": " "}` (whitespace-only text)
the handler does NOT reject: it invokes the synthesis capability and
returns 200, because `if not text:` tests Python truthiness and `" "` is
a non-empty, hence truthy, string — no trimming is performed. -/
theorem c3_counterexample :
    (synthesize capAdd uuidGen0 (.obj [("text", .str " ")]) 0 ⟨[]⟩).calls ≠ [] ∧
    (synthesize capAdd uuidGen0 (.obj [("text", .str " ")]) 0 ⟨[]⟩).result
        ≠ .ok noTextResponse := by
  constructor
  · intro h
    rw [show (synthesize capAdd uuidGen0 (.obj [("text", .str " ")]) 0 ⟨[]⟩).calls
          = [⟨.str " ", audioFilePath (uuidGen0 0)⟩] from rfl] at h
    exact absurd h (List.cons_ne_nil _ _)
  · intro h
    rw [show (synthesize capAdd uuidGen0 (.obj [("text", .str " ")]) 0 ⟨[]⟩).result
          = .ok (okResponse (audioFilePath (uuidGen0 0))) from rfl] at h
    injection h with h
    exact absurd (congrArg Response.status h) (by decide)

/-- C3 amended: the handler performs no trimming. It rejects with the 400
validation error (and no synthesis call) exactly when the `text` value is
the empty string; any non-empty string — including whitespace-only ones
such as `" "` — passes validation and is forwarded to the synthesis
capability. -/
theorem c3_no_trimming (cap : Capability) (uuidGen : Nat → String)
    (fields : List (String × JsonVal)) (ctr : Nat) (fs : FS) (s : String)
    (hl : fields.lookup "text" = some (.str s)) :
    (s = "" →
      synthesize cap uuidGen (.obj fields) ctr fs
        = ⟨.ok noTextResponse, [], fs, ctr⟩) ∧
    (s ≠ "" →
      (synthesize cap uuidGen (.obj fields) ctr fs).calls
        = [⟨.str s, audioFilePath (uuidGen ctr)⟩]) := by
  have hd : dictGet (.obj fields) "text" (.str "") = .ok (.str s) := by
    simp [dictGet, hl]
  constructor
  · intro hs
    subst hs
    exact synthesize_rejected cap uuidGen (.obj fields) ctr fs (.str "") hd rfl
  · intro hs
    exact synthesize_calls_accepted cap uuidGen (.obj fields) ctr fs (.str s) hd
      (truthy_str_of_ne s hs)

/-- Witness for the amended C3: the whitespace-only body `{"text": " "}`
is forwarded to the capability. -/
theorem c3_witness :
    (synthesize capAdd uuidGen0 (.obj [("text", .str " ")]) 0 ⟨[]⟩).calls
      = [⟨.str " ", audioFilePath (uuidGen0 0)⟩] :=
  (c3_no_trimming capAdd uuidGen0 [("text", .str " ")] 0 ⟨[]⟩ " " rfl).2 (by decide)

/-- C4: when validation fails (the extracted `text` is falsy), the full
outcome equation shows no side effects at all: no synthesis call, the
filesystem unchanged, and the uuid counter unchanged (no random token
consumed — `uuid.uuid4()` is only reached after validation passes). -/
theorem c4_validation_failure_no_side_effects (cap : Capability)
    (uuidGen : Nat → String) (fields : List (String × JsonVal)) (ctr : Nat) (fs : FS)
    (h : truthy ((fields.lookup "text").getD (.str "")) = false) :
    synthesize cap uuidGen (.obj fields) ctr fs
      = ⟨.ok noTextResponse, [], fs, ctr⟩ :=
  synthesize_rejected cap uuidGen (.obj fields) ctr fs
    ((fields.lookup "text").getD (.str "")) rfl h

/-- Witness for C4 at body `{"text": ""}`. -/
theorem c4_witness :
    synthesize capAdd uuidGen0 (.obj [("text", .str "")]) 0 ⟨[]⟩
      = ⟨.ok noTextResponse, [], ⟨[]⟩, 0⟩ :=
  c4_validation_failure_no_side_effects capAdd uuidGen0 [("text", .str "")] 0 ⟨[]⟩ rfl

/-- C5: for every accepted request, the returned `audio_path` is exactly
the fixed output directory joined with `"tts_" ++ tok ++ ".wav"`; when the
token has the `uuid4().hex` shape (32 lowercase hex characters), the path
matches the claimed pattern, and it is absolute (starts with `/`). -/
theorem c5_audio_path_shape (cap : Capability) (uuidGen : Nat → String)
    (data : JsonVal) (ctr : Nat) (fs fs' : FS) (v : JsonVal)
    (hl : dictGet data "text" (.str "") = .ok v) (ht : truthy v = true)
    (hhex : isHex32 (uuidGen ctr) = true)
    (hc : cap v (audioFilePath (uuidGen ctr)) fs = .ok fs') :
    (synthesize cap uuidGen data ctr fs).result
        = .ok (okResponse (OUTPUT_DIR ++ "/tts_" ++ uuidGen ctr ++ ".wav")) ∧
    isHex32 (uuidGen ctr) = true ∧
    pyStartsWith (OUTPUT_DIR ++ "/tts_" ++ uuidGen ctr ++ ".wav") "/" = true := by
  rw [synthesize_accepted_ok cap uuidGen data ctr fs v fs' hl ht hc]
  refine ⟨by rw [audioFilePath_eq], hhex, ?_⟩
  rw [← audioFilePath_eq]
  exact audioFilePath_absolute (uuidGen ctr)

/-- Witness for C5 at body `{"text": "hello world"}` and a concrete hex
token. -/
theorem c5_witness :
    (synthesize capAdd uuidGen0 (.obj [("text", .str "hello world")]) 0 ⟨[]⟩).result
        = .ok (okResponse (OUTPUT_DIR ++ "/tts_" ++ uuidGen0 0 ++ ".wav")) ∧
    isHex32 (uuidGen0 0) = true ∧
    pyStartsWith (OUTPUT_DIR ++ "/tts_" ++ uuidGen0 0 ++ ".wav") "/" = true :=
  c5_audio_path_shape capAdd uuidGen0 (.obj [("text", .str "hello world")]) 0
    ⟨[]⟩ ⟨[audioFilePath (uuidGen0 0)]⟩ (.str "hello world") rfl rfl (by decide) rfl

/-- C6: filename construction is injective in the random token. Two
accepted requests with the same text but distinct tokens pass two
distinct output paths to the synthesis capability (so repeating a request
yields two distinct files: no idempotence/caching). -/
theorem c6_distinct_tokens_distinct_paths (cap : Capability)
    (uuidGen : Nat → String) (data : JsonVal) (v : JsonVal) (i j : Nat)
    (fsa fsb : FS)
    (hl : dictGet data "text" (.str "") = .ok v) (ht : truthy v = true)
    (hne : uuidGen i ≠ uuidGen j) :
    (synthesize cap uuidGen data i fsa).calls
        = [⟨v, audioFilePath (uuidGen i)⟩] ∧
    (synthesize cap uuidGen data j fsb).calls
        = [⟨v, audioFilePath (uuidGen j)⟩] ∧
    audioFilePath (uuidGen i) ≠ audioFilePath (uuidGen j) := by
  refine ⟨synthesize_calls_accepted cap uuidGen data i fsa v hl ht,
    synthesize_calls_accepted cap uuidGen data j fsb v hl ht, ?_⟩
  intro h
  exact hne (audioFilePath_inj (uuidGen i) (uuidGen j) h)

/-- Witness for C6: the same body `{"text": "hi"}` sent twice, consuming
tokens 0 and 1 of the concrete uuid stream. -/
theorem c6_witness :
    (synthesize capAdd uuidGen0 (.obj [("text", .str "hi")]) 0 ⟨[]⟩).calls
        = [⟨.str "hi", audioFilePath (uuidGen0 0)⟩] ∧
    (synthesize capAdd uuidGen0 (.obj [("text", .str "hi")]) 1 ⟨[]⟩).calls
        = [⟨.str "hi", audioFilePath (uuidGen0 1)⟩] ∧
    audioFilePath (uuidGen0 0) ≠ audioFilePath (uuidGen0 1) :=
  c6_distinct_tokens_distinct_paths capAdd uuidGen0 (.obj [("text", .str "hi")])
    (.str "hi") 0 1 ⟨[]⟩ ⟨[]⟩ rfl rfl (by decide)

/-- C7: no error handling wraps the synthesis call. If the capability
raises on an accepted request, the handler raises too — the result is the
escaping exception, never a 200 or 400 response — and the filesystem is
left exactly as the capability left it: no cleanup of a partially written
file. -/
theorem c7_synthesis_failure_propagates (cap : Capability)
    (uuidGen : Nat → String) (data : JsonVal) (ctr : Nat) (fs : FS)
    (v : JsonVal) (e : PyError) (fsBad : FS)
    (hl : dictGet data "text" (.str "") = .ok v) (ht : truthy v = true)
    (hc : cap v (audioFilePath (uuidGen ctr)) fs = .error (e, fsBad)) :
    synthesize cap uuidGen data ctr fs
      = ⟨.error e, [⟨v, audioFilePath (uuidGen ctr)⟩], fsBad, ctr + 1⟩ ∧
    ∀ r : Response, (synthesize cap uuidGen data ctr fs).result ≠ .ok r := by
  have heq := synthesize_accepted_error cap uuidGen data ctr fs v e fsBad hl ht hc
  refine ⟨heq, fun r h => ?_⟩
  rw [heq] at h
  exact Except.noConfusion h

/-- Witness for C7: the always-failing capability `capFail` on body
`{"text": "hi"}`; the partial file it left behind stays on disk. -/
theorem c7_witness :
    synthesize capFail uuidGen0 (.obj [("text", .str "hi")]) 0 ⟨[]⟩
      = ⟨.error (.exception "synthesis failed"),
         [⟨.str "hi", audioFilePath (uuidGen0 0)⟩],
         ⟨[audioFilePath (uuidGen0 0)]⟩, 1⟩ ∧
    ∀ r : Response,
      (synthesize capFail uuidGen0 (.obj [("text", .str "hi")]) 0 ⟨[]⟩).result
        ≠ .ok r :=
  c7_synthesis_failure_propagates capFail uuidGen0 (.obj [("text", .str "hi")])
    0 ⟨[]⟩ (.str "hi") (.exception "synthesis failed")
    ⟨[audioFilePath (uuidGen0 0)]⟩ rfl rfl rfl

/-- C8: every invocation of the handler mutates the filesystem in at most
one way. It makes at most one synthesis call, always targeting the
freshly generated path; and for any capability whose only effect is (at
most) creating the file it is asked for, every pre-existing file survives
(nothing is read, renamed, or deleted) and at most the one fresh path is
added — the output directory is append-only. -/
theorem c8_append_only (cap : Capability) (uuidGen : Nat → String)
    (data : JsonVal) (ctr : Nat) (fs : FS)
    (hcap : OnlyCreatesGivenPath cap) :
    (synthesize cap uuidGen data ctr fs).calls.length ≤ 1 ∧
    (∀ c ∈ (synthesize cap uuidGen data ctr fs).calls,
        c.file_path = audioFilePath (uuidGen ctr)) ∧
    fs.files ⊆ (synthesize cap uuidGen data ctr fs).fs.files ∧
    (synthesize cap uuidGen data ctr fs).fs.files
        ⊆ audioFilePath (uuidGen ctr) :: fs.files := by
  cases hd : dictGet data "text" (.str "") with
  | error e =>
    rw [synthesize_get_raises cap uuidGen data ctr fs e hd]
    exact ⟨Nat.zero_le 1, (by intro c hc; cases hc), List.Subset.refl _,
      List.subset_cons_self _ _⟩
  | ok v =>
    cases ht : truthy v with
    | false =>
      rw [synthesize_rejected cap uuidGen data ctr fs v hd ht]
      exact ⟨Nat.zero_le 1, (by intro c hc; cases hc), List.Subset.refl _,
        List.subset_cons_self _ _⟩
    | true =>
      cases hc : cap v (audioFilePath (uuidGen ctr)) fs with
      | error p =>
        obtain ⟨e, fs1⟩ := p
        rw [synthesize_accepted_error cap uuidGen data ctr fs v e fs1 hd ht hc]
        obtain ⟨h1, h2⟩ := hcap.2 v (audioFilePath (uuidGen ctr)) fs e fs1 hc
        refine ⟨Nat.le_refl 1, ?_, h1, h2⟩
        intro c hcall
        rw [List.mem_singleton] at hcall
        rw [hcall]
      | ok fs1 =>
        rw [synthesize_accepted_ok cap uuidGen data ctr fs v fs1 hd ht hc]
        obtain ⟨h1, h2⟩ := hcap.1 v (audioFilePath (uuidGen ctr)) fs fs1 hc
        refine ⟨Nat.le_refl 1, ?_, h1, h2⟩
        intro c hcall
        rw [List.mem_singleton] at hcall
        rw [hcall]

/-- Witness for C8: body `{"text": "hi"}` against a pre-existing file
`/old.wav`, with the creating capability `capAdd`. -/
theorem c8_witness :
    (synthesize capAdd uuidGen0 (.obj [("text", .str "hi")]) 0 ⟨["/old.wav"]⟩).calls.length ≤ 1 ∧
    (∀ c ∈ (synthesize capAdd uuidGen0 (.obj [("text", .str "hi")]) 0 ⟨["/old.wav"]⟩).calls,
        c.file_path = audioFilePath (uuidGen0 0)) ∧
    (⟨["/old.wav"]⟩ : FS).files
        ⊆ (synthesize capAdd uuidGen0 (.obj [("text", .str "hi")]) 0 ⟨["/old.wav"]⟩).fs.files ∧
    (synthesize capAdd uuidGen0 (.obj [("text", .str "hi")]) 0 ⟨["/old.wav"]⟩).fs.files
        ⊆ audioFilePath (uuidGen0 0) :: (⟨["/old.wav"]⟩ : FS).files :=
  c8_append_only capAdd uuidGen0 (.obj [("text", .str "hi")]) 0 ⟨["/old.wav"]⟩
    capAdd_onlyCreates

/-- C9: a request body that parses to JSON `null` makes `data.get("text")`
raise `AttributeError` (`None` has no `.get`): the handler raises instead
of returning any response — in particular not the 400 validation
response — with no synthesis call and no side effect. -/
theorem c9_null_body_raises (cap : Capability) (uuidGen : Nat → String)
    (ctr : Nat) (fs : FS) :
    synthesize cap uuidGen .null ctr fs = ⟨.error .attributeError, [], fs, ctr⟩ ∧
    ∀ r : Response, (synthesize cap uuidGen .null ctr fs).result ≠ .ok r := by
  refine ⟨rfl, fun r h => ?_⟩
  exact Except.noConfusion h

/-- C10: validation tests Python truthiness, not string type. For a JSON
object body binding `text` to `v`: if `v` is truthy it passes validation
and is forwarded unchanged to the synthesis capability; if `v` is falsy
the response is the 400 validation error. Empty string, `0`, `false`,
`null`, and `[]` are falsy; non-zero numbers, non-empty lists, and `true`
are truthy. -/
theorem c10_truthiness_not_type (cap : Capability) (uuidGen : Nat → String)
    (fields : List (String × JsonVal)) (ctr : Nat) (fs : FS) (v : JsonVal)
    (hl : fields.lookup "text" = some v) :
    (truthy v = true →
      (synthesize cap uuidGen (.obj fields) ctr fs).calls
        = [⟨v, audioFilePath (uuidGen ctr)⟩]) ∧
    (truthy v = false →
      synthesize cap uuidGen (.obj fields) ctr fs
        = ⟨.ok noTextResponse, [], fs, ctr⟩) ∧
    truthy (.str "") = false ∧ truthy (.num 0) = false ∧
    truthy (.bool false) = false ∧ truthy .null = false ∧
    truthy (.arr []) = false ∧
    (∀ n : Int, n ≠ 0 → truthy (.num n) = true) ∧
    (∀ (x : JsonVal) (l : List JsonVal), truthy (.arr (x :: l)) = true) ∧
    truthy (.bool true) = true := by
  have hd : dictGet (.obj fields) "text" (.str "") = .ok v := by
    simp [dictGet, hl]
  refine ⟨fun ht => synthesize_calls_accepted cap uuidGen (.obj fields) ctr fs v hd ht,
    fun ht => synthesize_rejected cap uuidGen (.obj fields) ctr fs v hd ht,
    rfl, rfl, rfl, rfl, rfl, ?_, fun x l => rfl, rfl⟩
  intro n hn
  simp [truthy, hn]

/-- Witness for C10: the non-string truthy value `7` as `text` is
forwarded unchanged to the synthesis capability. -/
theorem c10_witness :
    (synthesize capAdd uuidGen0 (.obj [("text", .num 7)]) 0 ⟨[]⟩).calls
      = [⟨.num 7, audioFilePath (uuidGen0 0)⟩] :=
  (c10_truthiness_not_type capAdd uuidGen0 [("text", .num 7)] 0 ⟨[]⟩ (.num 7) rfl).1 rfl
